import Mathlib

/-!
Verification of the flet-health value-wrapping / parameter-marshaling layer.

The development shallowly embeds the Python sources:
  * `src/flet_health/utils.py` — `wrap_value`, the envelope encoder;
  * `src/flet_health/health_schemas.py` — the pydantic parameter objects
    (`HealthAuthorizationParams`, `GetHealthDataParams`,
    `HealthIntervalDataParams`) and their root validators;
  * `src/flet_health/flet_health.py` — the reply-interpretation tails of
    `request_authorization`, `has_permissions`, and the list-returning read
    operations.

Python values handled by the encoder are modelled by the inductive `PyValue`.
A timezone-aware `datetime` is modelled by its exact count of microseconds
since the epoch (`datetime` has microsecond resolution); `d.timestamp()` is
then exactly `micros / 10^6` seconds, and arithmetic on it is modelled
exactly (rational), not in floating point.  Python's `int(x)` truncates
toward zero, so `int(d.timestamp() * 1000)` on exact arithmetic is
`Int.tdiv micros 1000`.
-/

/-- A Python value drawn from the domain handled by `wrap_value`
(`src/flet_health/utils.py`).  `enumMember cls v` models a member of the
enum class named `cls` whose `.value` attribute is `v`; `datetime micros`
models an aware datetime lying `micros` microseconds after the epoch;
`obj tyName` models any object of some other class `tyName`, outside the
supported domain. -/
inductive PyValue where
  | none
  | bool (b : Bool)
  | int (n : Int)
  | float (q : Rat)
  | str (s : String)
  | datetime (micros : Int)
  | enumMember (cls : String) (v : PyValue)
  | list (xs : List PyValue)
  | dict (kvs : List (String × PyValue))
  | obj (tyName : String)

/-- The envelope produced by `wrap_value`: the dict
`{"value": ..., "type": ..., "subtype": ..., "class_name": ...}`. -/
structure Envelope where
  value : PyValue
  type : String
  subtype : Option String
  class_name : Option String

/-- Python `a or b` for an optional string `a` and literal `b`:
`None` and the empty string are falsy. -/
def pyOrStr (a : Option String) (b : String) : String :=
  match a with
  | Option.none => b
  | Option.some s => if s = "" then b else s

/-- `v.value if isinstance(v, Enum) else v` — the element transform of the
hinted-list branch of `wrap_value`. -/
def enumReduce (v : PyValue) : PyValue :=
  match v with
  | PyValue.enumMember _ raw => raw
  | x => x

/-- The comprehension `[v.value for v in param_value]` from the inferred
enum-list branch of `wrap_value`: reading `.value` off a non-enum raises
`AttributeError`. -/
def enumRawValues : List PyValue → Except String (List PyValue)
  | [] => Except.ok []
  | v :: rest =>
    match v with
    | PyValue.enumMember _ raw => Except.map (fun tl => raw :: tl) (enumRawValues rest)
    | _ => Except.error "AttributeError: object has no attribute value"

/-- `wrap_value(param_value, type_name, subtype_name, class_name)` from
`src/flet_health/utils.py`.  Structure of the source, in order:
`None` check first (returning the hints, with `type_name or "none"`); then
the hinted-list branch guarded by `type_name == "list" and
isinstance(param_value, list)`; then the `match` over
bool / int / float / str / datetime / Enum / list / dict, with a trailing
`case _` that raises `TypeError` for unsupported values.  Both early
branches only fire for the constructors they test, so they are folded into
the corresponding constructor cases here. -/
def wrap_value (param_value : PyValue) (type_name subtype_name class_name : Option String) :
    Except String Envelope :=
  match param_value with
  | PyValue.none =>
      Except.ok ⟨PyValue.none, pyOrStr type_name "none", subtype_name, class_name⟩
  | PyValue.list xs =>
      if type_name = Option.some "list" then
        Except.ok ⟨PyValue.list (xs.map enumReduce), "list", subtype_name, class_name⟩
      else
        match xs with
        | [] => Except.ok ⟨PyValue.list [], "list", Option.none, Option.none⟩
        | x :: _ =>
          match x with
          | PyValue.enumMember cls _ =>
              Except.map (fun items => ⟨PyValue.list items, "list", Option.some "enum", Option.some cls⟩)
                (enumRawValues xs)
          | _ => Except.ok ⟨PyValue.list xs, "list", Option.none, Option.none⟩
  | PyValue.bool b => Except.ok ⟨PyValue.bool b, "bool", Option.none, Option.none⟩
  | PyValue.int n => Except.ok ⟨PyValue.int n, "int", Option.none, Option.none⟩
  | PyValue.float q => Except.ok ⟨PyValue.float q, "float", Option.none, Option.none⟩
  | PyValue.str s => Except.ok ⟨PyValue.str s, "str", Option.none, Option.none⟩
  | PyValue.datetime micros =>
      Except.ok ⟨PyValue.int (Int.tdiv micros 1000), "date", Option.none, Option.none⟩
  | PyValue.enumMember cls v =>
      Except.ok ⟨v, "enum", Option.none, Option.some cls⟩
  | PyValue.dict kvs => Except.ok ⟨PyValue.dict kvs, "dict", Option.none, Option.none⟩
  | PyValue.obj tyName => Except.error ("Unsupported type " ++ tyName)

/-- Modelled from the spec: the enums live in `flet_health/health_data_types.py`,
which is imported by the provided sources but is not itself among them.  The
spec's scenarios use the health data types `STEPS` and `WEIGHT` with raw string
values `"STEPS"` and `"WEIGHT"`; two members suffice for every claim, which
treat the type as opaque. -/
inductive HealthDataType where
  | STEPS
  | WEIGHT
deriving DecidableEq

/-- Raw `.value` of a health data type member (its own name, per the spec's
scenario `types` envelope `{value:["STEPS","WEIGHT"], ...}`). -/
def HealthDataType.value : HealthDataType → String
  | HealthDataType.STEPS => "STEPS"
  | HealthDataType.WEIGHT => "WEIGHT"

/-- Modelled from the spec: the `DataAccess` enum from
`health_data_types.py` (not among the provided sources); the spec's scenario
shows members `READ` and `WRITE` with raw values `"READ"`, `"WRITE"`. -/
inductive DataAccess where
  | READ
  | WRITE
deriving DecidableEq

/-- Raw `.value` of a `DataAccess` member. -/
def DataAccess.value : DataAccess → String
  | DataAccess.READ => "READ"
  | DataAccess.WRITE => "WRITE"

/-- Modelled from the spec: the `RecordingMethod` enum from
`health_data_types.py` (not among the provided sources); the valid raw
values are the strings `'unknown'`, `'active'`, `'automatic'`, `'manual'`
(docstrings of `flet_health.py` and the spec's glossary). -/
inductive RecordingMethod where
  | unknown
  | active
  | automatic
  | manual
deriving DecidableEq

/-- Raw `.value` of a `RecordingMethod` member. -/
def RecordingMethod.value : RecordingMethod → String
  | RecordingMethod.unknown => "unknown"
  | RecordingMethod.active => "active"
  | RecordingMethod.automatic => "automatic"
  | RecordingMethod.manual => "manual"

/-- A `RecordingMethod` member as the `PyValue` that pydantic's `.dict()`
hands to `wrap_value` (enum members are kept as enum instances). -/
def RecordingMethod.toPy (r : RecordingMethod) : PyValue :=
  PyValue.enumMember "RecordingMethod" (PyValue.str r.value)

/-- The keyword arguments `type_name` / `subtype_name` / `class_name` that a
`force_wrap` entry of `WrappedBaseModel` passes on to `wrap_value`
(`health_schemas.py`). -/
structure WrapHints where
  type_name : Option String
  subtype_name : Option String
  class_name : Option String

/-- `self.force_wrap.get(key, {})` when the key is absent: no hints. -/
def noHints : WrapHints := ⟨Option.none, Option.none, Option.none⟩

/-- The validated field set of `HealthAuthorizationParams`
(`health_schemas.py`): `types`, `data_access` (after default filling) and
`wait_timeout`. -/
structure HealthAuthorizationParams where
  types : List HealthDataType
  data_access : List DataAccess
  wait_timeout : Rat

/-- Constructing a `HealthAuthorizationParams` (pydantic validation of
`health_schemas.py`):  the pre-root-validator `apply_default_data_access`
replaces an absent `data_access` by `[DataAccess.READ] * len(types)`; field
validation then only checks `wait_timeout: Field(gt=0)` (element types are
enforced by the Lean types here).  The model declares no constraint tying
`len(data_access)` to `len(types)`. -/
def HealthAuthorizationParams.construct (types : List HealthDataType)
    (data_access : Option (List DataAccess)) (wait_timeout : Rat) :
    Except String HealthAuthorizationParams :=
  let da := match data_access with
    | Option.none => List.replicate types.length DataAccess.READ
    | Option.some l => l
  if 0 < wait_timeout then Except.ok ⟨types, da, wait_timeout⟩
  else Except.error "ValidationError: wait_timeout must be greater than 0"

/-- The argument-validation and payload-building prefix of
`Health.request_authorization` (`flet_health.py`): an absent `data_access`
is replaced by `[DataAccess.READ] * len(types)`; an explicitly supplied one
must have the same length as `types`, else `ValueError`.  The payload's
`data_access` entry is `[da.value for da in data_access] if data_access
else None` (an empty list is falsy). -/
def request_authorization_validate (types : List HealthDataType)
    (data_access : Option (List DataAccess)) :
    Except String (List String × Option (List String)) :=
  match data_access with
  | Option.none =>
      let da := List.replicate types.length DataAccess.READ
      Except.ok (types.map HealthDataType.value,
        if da.isEmpty then Option.none else Option.some (da.map DataAccess.value))
  | Option.some da =>
      if da.length ≠ types.length then
        Except.error "The 'data_access' list must be the same size as 'types'."
      else
        Except.ok (types.map HealthDataType.value,
          if da.isEmpty then Option.none else Option.some (da.map DataAccess.value))

/-- The pre-root-validator `set_defaults_and_metadata` of
`GetHealthDataParams` (`health_schemas.py`): when `recording_method` is
absent or `None` it becomes `[]` and a `force_wrap` entry
`{type_name: "list", subtype_name: "enum", class_name: "RecordingMethod"}`
is recorded for it; otherwise the value is kept and no entry is made. -/
def GetHealthDataParams.set_defaults_and_metadata
    (recording_method : Option (List RecordingMethod)) :
    List RecordingMethod × Option WrapHints :=
  match recording_method with
  | Option.none =>
      ([], Option.some ⟨Option.some "list", Option.some "enum", Option.some "RecordingMethod"⟩)
  | Option.some l => (l, Option.none)

/-- The `recording_method` entry of `GetHealthDataParams().to_wrapped()`:
`to_wrapped` (in `WrappedBaseModel`) wraps each field with
`wrap_value(value, **self.force_wrap.get(key, {}))`. -/
def GetHealthDataParams.recording_method_wrapped
    (recording_method : Option (List RecordingMethod)) : Except String Envelope :=
  let p := GetHealthDataParams.set_defaults_and_metadata recording_method
  let h := p.2.getD noHints
  wrap_value (PyValue.list (p.1.map RecordingMethod.toPy)) h.type_name h.subtype_name h.class_name

/-- The pre-root-validator `set_defaults_and_metadata` of
`HealthIntervalDataParams` (`health_schemas.py`), textually identical to the
one of `GetHealthDataParams`. -/
def HealthIntervalDataParams.set_defaults_and_metadata
    (recording_method : Option (List RecordingMethod)) :
    List RecordingMethod × Option WrapHints :=
  match recording_method with
  | Option.none =>
      ([], Option.some ⟨Option.some "list", Option.some "enum", Option.some "RecordingMethod"⟩)
  | Option.some l => (l, Option.none)

/-- The `recording_method` entry of `HealthIntervalDataParams().to_wrapped()`. -/
def HealthIntervalDataParams.recording_method_wrapped
    (recording_method : Option (List RecordingMethod)) : Except String Envelope :=
  let p := HealthIntervalDataParams.set_defaults_and_metadata recording_method
  let h := p.2.getD noHints
  wrap_value (PyValue.list (p.1.map RecordingMethod.toPy)) h.type_name h.subtype_name h.class_name

/-- The reply interpretation of `Health.has_permissions` (`flet_health.py`):
`if result == "true": return True; elif result == "false": return False;
else: return None`, where `result` is the channel's `string | null` reply. -/
def has_permissions_interpret (result : Option String) : Option Bool :=
  if result = Option.some "true" then Option.some true
  else if result = Option.some "false" then Option.some false
  else Option.none

/-- The reply interpretation of `Health.has_permissions_async`
(`flet_health.py`), textually identical to the synchronous one. -/
def has_permissions_async_interpret (result : Option String) : Option Bool :=
  if result = Option.some "true" then Option.some true
  else if result = Option.some "false" then Option.some false
  else Option.none

/-- The reply interpretation of the boolean-result operations, e.g.
`Health.request_authorization` (`flet_health.py`): `return result == "true"`. -/
def request_authorization_interpret (result : Option String) : Bool :=
  decide (result = Option.some "true")

/-- A JSON document, as produced by Python's `json.loads`. -/
inductive Json where
  | null
  | bool (b : Bool)
  | num (n : Int)
  | str (s : String)
  | arr (elems : List Json)
  | obj (entries : List (String × Json))

/-- Skip JSON whitespace. -/
def jsonSkipWs : List Char → List Char
  | [] => []
  | c :: rest =>
    if c = ' ' ∨ c = '\t' ∨ c = '\n' ∨ c = '\r' then jsonSkipWs rest else c :: rest

/-- Consume an expected literal character sequence. -/
def jsonExpect : List Char → List Char → Option (List Char)
  | [], cs => Option.some cs
  | e :: es, c :: cs => if c = e then jsonExpect es cs else Option.none
  | _ :: _, [] => Option.none

/-- Parse the body of a JSON string literal after the opening quote,
handling the standard single-character escapes. -/
def jsonStringBody : List Char → Option (String × List Char)
  | [] => Option.none
  | c :: rest =>
    if c = '"' then Option.some ("", rest)
    else if c = '\\' then
      match rest with
      | [] => Option.none
      | e :: rest2 =>
        let dec : Option Char :=
          if e = '"' then Option.some '"'
          else if e = '\\' then Option.some '\\'
          else if e = '/' then Option.some '/'
          else if e = 'n' then Option.some '\n'
          else if e = 't' then Option.some '\t'
          else if e = 'r' then Option.some '\r'
          else Option.none
        match dec with
        | Option.none => Option.none
        | Option.some d =>
          match jsonStringBody rest2 with
          | Option.none => Option.none
          | Option.some (s, cs) => Option.some (String.mk (d :: s.data), cs)
    else
      match jsonStringBody rest with
      | Option.none => Option.none
      | Option.some (s, cs) => Option.some (String.mk (c :: s.data), cs)

/-- Parse a run of decimal digits. -/
def jsonDigits : List Char → List Char × List Char
  | [] => ([], [])
  | c :: rest =>
    if c.isDigit then
      let p := jsonDigits rest
      (c :: p.1, p.2)
    else ([], c :: rest)

/-- Parse a JSON integer literal (an optional minus sign and digits). -/
def jsonNumber (cs : List Char) : Option (Int × List Char) :=
  match cs with
  | '-' :: rest =>
    let p := jsonDigits rest
    if p.1.isEmpty then Option.none
    else Option.some (-(Int.ofNat (String.toNat! (String.mk p.1))), p.2)
  | _ =>
    let p := jsonDigits cs
    if p.1.isEmpty then Option.none
    else Option.some (Int.ofNat (String.toNat! (String.mk p.1)), p.2)

mutual

/-- Fuel-bounded recursive-descent parser for one JSON value. -/
def jsonValue : Nat → List Char → Option (Json × List Char)
  | 0, _ => Option.none
  | Nat.succ fuel, cs =>
    match jsonSkipWs cs with
    | [] => Option.none
    | c :: rest =>
      if c = 'n' then
        match jsonExpect ['u', 'l', 'l'] rest with
        | Option.some cs2 => Option.some (Json.null, cs2)
        | Option.none => Option.none
      else if c = 't' then
        match jsonExpect ['r', 'u', 'e'] rest with
        | Option.some cs2 => Option.some (Json.bool true, cs2)
        | Option.none => Option.none
      else if c = 'f' then
        match jsonExpect ['a', 'l', 's', 'e'] rest with
        | Option.some cs2 => Option.some (Json.bool false, cs2)
        | Option.none => Option.none
      else if c = '"' then
        match jsonStringBody rest with
        | Option.some (s, cs2) => Option.some (Json.str s, cs2)
        | Option.none => Option.none
      else if c = '[' then
        match jsonSkipWs rest with
        | ']' :: cs2 => Option.some (Json.arr [], cs2)
        | cs2 =>
          match jsonArrayItems fuel cs2 with
          | Option.some (xs, cs3) => Option.some (Json.arr xs, cs3)
          | Option.none => Option.none
      else if c = '{' then
        match jsonSkipWs rest with
        | '}' :: cs2 => Option.some (Json.obj [], cs2)
        | cs2 =>
          match jsonObjectItems fuel cs2 with
          | Option.some (kvs, cs3) => Option.some (Json.obj kvs, cs3)
          | Option.none => Option.none
      else
        match jsonNumber (c :: rest) with
        | Option.some (n, cs2) => Option.some (Json.num n, cs2)
        | Option.none => Option.none

/-- Parse the comma-separated elements of a non-empty JSON array, up to and
including the closing bracket. -/
def jsonArrayItems : Nat → List Char → Option (List Json × List Char)
  | 0, _ => Option.none
  | Nat.succ fuel, cs =>
    match jsonValue fuel cs with
    | Option.none => Option.none
    | Option.some (x, cs2) =>
      match jsonSkipWs cs2 with
      | ']' :: cs3 => Option.some ([x], cs3)
      | ',' :: cs3 =>
        match jsonArrayItems fuel cs3 with
        | Option.some (xs, cs4) => Option.some (x :: xs, cs4)
        | Option.none => Option.none
      | _ => Option.none

/-- Parse the comma-separated members of a non-empty JSON object, up to and
including the closing brace. -/
def jsonObjectItems : Nat → List Char → Option (List (String × Json) × List Char)
  | 0, _ => Option.none
  | Nat.succ fuel, cs =>
    match jsonSkipWs cs with
    | '"' :: cs1 =>
      match jsonStringBody cs1 with
      | Option.none => Option.none
      | Option.some (k, cs2) =>
        match jsonSkipWs cs2 with
        | ':' :: cs3 =>
          match jsonValue fuel cs3 with
          | Option.none => Option.none
          | Option.some (v, cs4) =>
            match jsonSkipWs cs4 with
            | '}' :: cs5 => Option.some ([(k, v)], cs5)
            | ',' :: cs5 =>
              match jsonObjectItems fuel cs5 with
              | Option.some (kvs, cs6) => Option.some ((k, v) :: kvs, cs6)
              | Option.none => Option.none
            | _ => Option.none
        | _ => Option.none
    | _ => Option.none

end

/-- `json.loads` on a reply string: parse one JSON document and require that
only whitespace remains; anything else raises `json.JSONDecodeError`. -/
def json_loads (s : String) : Except String Json :=
  match jsonValue (s.length + 2) s.data with
  | Option.none => Except.error "json.decoder.JSONDecodeError: Expecting value"
  | Option.some (j, rest) =>
    if jsonSkipWs rest = [] then Except.ok j
    else Except.error "json.decoder.JSONDecodeError: Extra data"

/-- The shared reply idiom `json.loads(result) if result else []` of the
list-returning read operations (`flet_health.py`): a `null` or empty-string
reply is falsy and yields `[]`; otherwise the body is parsed as JSON. -/
def list_reply_decode (result : Option String) : Except String Json :=
  match result with
  | Option.none => Except.ok (Json.arr [])
  | Option.some s => if s = "" then Except.ok (Json.arr []) else json_loads s

/-- The reply handling of `Health.get_health_data_from_types`
(`flet_health.py`): the `return json.loads(result) if result else []` sits
inside a `try` whose `except Exception` returns `[]`. -/
def get_health_data_from_types_reply (result : Option String) : Json :=
  match list_reply_decode result with
  | Except.ok j => j
  | Except.error _ => Json.arr []

/-- The reply handling of `Health.get_health_interval_data_from_types`
(`flet_health.py`), textually identical: the decode sits inside a
`try` / `except Exception` that returns `[]`. -/
def get_health_interval_data_from_types_reply (result : Option String) : Json :=
  match list_reply_decode result with
  | Except.ok j => j
  | Except.error _ => Json.arr []

/-- The reply handling of `Health.get_health_aggregate_data_from_types`
(`flet_health.py`): the same `return json.loads(result) if result else []`,
but with no surrounding `try` / `except` — a parse failure propagates. -/
def get_health_aggregate_data_from_types_reply (result : Option String) :
    Except String Json :=
  list_reply_decode result

/-! ## Theorems -/

/-- The comprehension `[v.value for v in L]` succeeds on a list whose members
all belong to one enum class, returning their raw values. -/
theorem enumRawValues_map_enum (cls : String) (ps : List PyValue) :
    enumRawValues (ps.map (PyValue.enumMember cls)) = Except.ok ps := by
  induction ps with
  | nil => rfl
  | cons p rest ih => simp [enumRawValues, ih, Except.map]

/-- C1 counterexample: contrary to the claim's "(including the empty list)",
`wrap_value([])` with no hints returns `subtype = None` and
`class_name = None`, not `subtype = "enum"` with the enum type's name — the
empty list never reaches the enum-detecting branch, which inspects the first
element. -/
theorem C1_counterexample :
    wrap_value (PyValue.list []) Option.none Option.none Option.none =
      Except.ok ⟨PyValue.list [], "list", Option.none, Option.none⟩ ∧
    wrap_value (PyValue.list []) Option.none Option.none Option.none ≠
      Except.ok ⟨PyValue.list [], "list", Option.some "enum", Option.some "DataAccess"⟩ := by
  refine ⟨rfl, ?_⟩
  intro h
  simp [wrap_value] at h

/-- C1 (amended): for every nonempty homogeneous list of members of a single
enum type, `wrap_value` with no hints returns the list of the members' raw
values with `type = "list"`, `subtype = "enum"` and `class_name` the name of
the enum type.  (The empty list instead gets null `subtype`/`class_name`.) -/
theorem C1_wrap_enum_list (cls : String) (raw : PyValue) (raws : List PyValue) :
    wrap_value (PyValue.list ((raw :: raws).map (PyValue.enumMember cls)))
      Option.none Option.none Option.none =
    Except.ok ⟨PyValue.list (raw :: raws), "list", Option.some "enum", Option.some cls⟩ := by
  simp [wrap_value, enumRawValues_map_enum, Except.map, enumRawValues]

/-- C2 counterexample: for the datetime 500 microseconds before the epoch,
the code's `int(timestamp * 1000)` truncates toward zero and yields `0`,
whereas `floor(seconds * 1000) = floor(-0.5) = -1` — so the wrapped value is
not the floor for pre-epoch datetimes with fractional milliseconds. -/
theorem C2_counterexample :
    wrap_value (PyValue.datetime (-500)) Option.none Option.none Option.none =
      Except.ok ⟨PyValue.int 0, "date", Option.none, Option.none⟩ ∧
    Int.fdiv (-500) 1000 = -1 ∧ (0 : Int) ≠ -1 := ⟨rfl, rfl, by decide⟩

/-- C2 (amended): for every datetime (modelled exactly as `micros`
microseconds since the epoch), `wrap_value` with no hints returns
`int(timestamp * 1000)` — the milliseconds-since-epoch truncated toward
zero — with `type = "date"`; for datetimes at or after the epoch that
truncation coincides with the floor. -/
theorem C2_wrap_datetime (micros : Int) :
    wrap_value (PyValue.datetime micros) Option.none Option.none Option.none =
      Except.ok ⟨PyValue.int (Int.tdiv micros 1000), "date", Option.none, Option.none⟩ ∧
    (0 ≤ micros → Int.tdiv micros 1000 = Int.fdiv micros 1000) :=
  ⟨rfl, fun h => (Int.fdiv_eq_tdiv h (by decide)).symm⟩

/-- C2 witness: the amended theorem evaluated at a concrete post-epoch
datetime. -/
theorem C2_wrap_datetime_witness :
    wrap_value (PyValue.datetime 1700000000123456) Option.none Option.none Option.none =
      Except.ok ⟨PyValue.int (Int.tdiv 1700000000123456 1000), "date", Option.none, Option.none⟩ ∧
    Int.tdiv 1700000000123456 1000 = Int.fdiv 1700000000123456 1000 :=
  ⟨(C2_wrap_datetime 1700000000123456).1, (C2_wrap_datetime 1700000000123456).2 (by decide)⟩

/-- C3 counterexample: constructing `HealthAuthorizationParams` with
`types` of length 1 and an explicit `data_access` of length 2 succeeds —
no validation error is raised and both lists are kept unchanged; the
pydantic model declares no length constraint. -/
theorem C3_counterexample :
    HealthAuthorizationParams.construct [HealthDataType.STEPS]
        (Option.some [DataAccess.READ, DataAccess.WRITE]) 25 =
      Except.ok ⟨[HealthDataType.STEPS], [DataAccess.READ, DataAccess.WRITE], 25⟩ := rfl

/-- C3 (amended): constructing `HealthAuthorizationParams` with an explicit
mismatched `data_access` succeeds with both lists unchanged (nothing is
truncated or padded), while `Health.request_authorization` is where an
explicit `data_access` whose length differs from `types` raises a
`ValueError`. -/
theorem C3_length_mismatch (types : List HealthDataType) (da : List DataAccess)
    (w : Rat) (hw : 0 < w) (hlen : da.length ≠ types.length) :
    HealthAuthorizationParams.construct types (Option.some da) w =
      Except.ok ⟨types, da, w⟩ ∧
    request_authorization_validate types (Option.some da) =
      Except.error "The 'data_access' list must be the same size as 'types'." := by
  constructor
  · simp [HealthAuthorizationParams.construct, hw]
  · simp [request_authorization_validate, hlen]

/-- C3 witness: the amended theorem evaluated at `types = [STEPS]`,
`data_access = [READ, WRITE]`, `wait_timeout = 25`. -/
theorem C3_length_mismatch_witness :
    HealthAuthorizationParams.construct [HealthDataType.STEPS]
        (Option.some [DataAccess.READ, DataAccess.WRITE]) 25 =
      Except.ok ⟨[HealthDataType.STEPS], [DataAccess.READ, DataAccess.WRITE], 25⟩ ∧
    request_authorization_validate [HealthDataType.STEPS]
        (Option.some [DataAccess.READ, DataAccess.WRITE]) =
      Except.error "The 'data_access' list must be the same size as 'types'." :=
  C3_length_mismatch [HealthDataType.STEPS] [DataAccess.READ, DataAccess.WRITE] 25
    (by decide) (by decide)

/-- C4 counterexample: hints do not force the tags for an integer — with
`type_name = "str"`, `subtype_name = "enum"`, `class_name = "X"` supplied,
`wrap_value(5)` still returns the inferred `{type: "int", subtype: None,
class_name: None}`. -/
theorem C4_counterexample :
    wrap_value (PyValue.int 5) (Option.some "str") (Option.some "enum") (Option.some "X") =
      Except.ok ⟨PyValue.int 5, "int", Option.none, Option.none⟩ ∧
    "int" ≠ "str" := ⟨rfl, by decide⟩

/-- C4 (amended): hints take effect only for a `None` value (all three are
carried into the envelope, with `type_name or "none"`) and for a list value
when `type_name = "list"` (the supplied `subtype`/`class_name` are carried,
enum members reduced); for every other value shape — and for a list when
`type_name ≠ "list"` — the hints are ignored and the inferred envelope is
returned. -/
theorem C4_hints_scope (tn sn cn : Option String) :
    (wrap_value PyValue.none tn sn cn =
       Except.ok ⟨PyValue.none, pyOrStr tn "none", sn, cn⟩) ∧
    (∀ xs, wrap_value (PyValue.list xs) (Option.some "list") sn cn =
       Except.ok ⟨PyValue.list (xs.map enumReduce), "list", sn, cn⟩) ∧
    (∀ v, (∀ xs, v ≠ PyValue.list xs) → v ≠ PyValue.none →
       wrap_value v tn sn cn = wrap_value v Option.none Option.none Option.none) ∧
    (tn ≠ Option.some "list" →
       ∀ xs, wrap_value (PyValue.list xs) tn sn cn =
         wrap_value (PyValue.list xs) Option.none Option.none Option.none) := by
  refine ⟨rfl, fun xs => by simp [wrap_value], fun v hlist hnone => ?_, fun hne xs => ?_⟩
  · cases v with
    | none => exact absurd rfl hnone
    | list xs => exact absurd rfl (hlist xs)
    | bool b => rfl
    | int n => rfl
    | float q => rfl
    | str s => rfl
    | datetime m => rfl
    | enumMember c w => rfl
    | dict kvs => rfl
    | obj t => rfl
  · simp [wrap_value, hne]

/-- C4 witness: the amended theorem applied to the integer `5` under forced
hints, which are ignored. -/
theorem C4_hints_scope_witness :
    wrap_value (PyValue.int 5) (Option.some "str") (Option.some "enum") (Option.some "X") =
      wrap_value (PyValue.int 5) Option.none Option.none Option.none :=
  (C4_hints_scope (Option.some "str") (Option.some "enum") (Option.some "X")).2.2.1
    (PyValue.int 5) (fun _ h => PyValue.noConfusion h) (fun h => PyValue.noConfusion h)

/-- C5 counterexample: a reply body that is not parseable as JSON makes
`get_health_aggregate_data_from_types` propagate the decode error rather
than return the empty list — unlike the other two read operations, its
decode has no surrounding `try`/`except`. -/
theorem C5_counterexample :
    get_health_aggregate_data_from_types_reply (Option.some "not json") =
      Except.error "json.decoder.JSONDecodeError: Expecting value" := rfl

/-- C5 (amended): for all three list-returning read operations an
absent/null/empty reply yields `[]`; a non-empty reply whose body fails JSON
parsing yields `[]` for `get_health_data_from_types` and
`get_health_interval_data_from_types` (their decode sits inside
`try`/`except Exception`, which returns `[]`), while
`get_health_aggregate_data_from_types` propagates the parse error. -/
theorem C5_list_reply (s : String) :
    (∀ r, r = Option.none ∨ r = Option.some "" →
       get_health_data_from_types_reply r = Json.arr [] ∧
       get_health_interval_data_from_types_reply r = Json.arr [] ∧
       get_health_aggregate_data_from_types_reply r = Except.ok (Json.arr [])) ∧
    (∀ e, s ≠ "" → json_loads s = Except.error e →
       get_health_data_from_types_reply (Option.some s) = Json.arr [] ∧
       get_health_interval_data_from_types_reply (Option.some s) = Json.arr [] ∧
       get_health_aggregate_data_from_types_reply (Option.some s) = Except.error e) := by
  constructor
  · intro r hr
    rcases hr with h | h <;> subst h <;> exact ⟨rfl, rfl, rfl⟩
  · intro e hne hjson
    refine ⟨?_, ?_, ?_⟩
    · simp [get_health_data_from_types_reply, list_reply_decode, hne, hjson]
    · simp [get_health_interval_data_from_types_reply, list_reply_decode, hne, hjson]
    · simp [get_health_aggregate_data_from_types_reply, list_reply_decode, hne, hjson]

/-- C5 witness: the amended theorem evaluated at the absent reply and at the
unparseable body `"not json"`. -/
theorem C5_list_reply_witness :
    get_health_data_from_types_reply Option.none = Json.arr [] ∧
    get_health_data_from_types_reply (Option.some "not json") = Json.arr [] ∧
    get_health_interval_data_from_types_reply (Option.some "not json") = Json.arr [] ∧
    get_health_aggregate_data_from_types_reply (Option.some "not json") =
      Except.error "json.decoder.JSONDecodeError: Expecting value" :=
  ⟨((C5_list_reply "not json").1 Option.none (Or.inl rfl)).1,
   ((C5_list_reply "not json").2 "json.decoder.JSONDecodeError: Expecting value"
      (by decide) rfl).1,
   ((C5_list_reply "not json").2 "json.decoder.JSONDecodeError: Expecting value"
      (by decide) rfl).2.1,
   ((C5_list_reply "not json").2 "json.decoder.JSONDecodeError: Expecting value"
      (by decide) rfl).2.2⟩

/-- C6: constructing `GetHealthDataParams` (or `HealthIntervalDataParams`)
with `recording_method` omitted/`None` serializes that field as
`{value: [], type: "list", subtype: "enum", class_name: "RecordingMethod"}`:
the root validator substitutes `[]` and records a `force_wrap` hint, which
`to_wrapped` passes to `wrap_value`, whose hinted-list branch keeps the
forced tags on the empty list. -/
theorem C6_recording_method_default :
    GetHealthDataParams.recording_method_wrapped Option.none =
      Except.ok ⟨PyValue.list [], "list", Option.some "enum", Option.some "RecordingMethod"⟩ ∧
    HealthIntervalDataParams.recording_method_wrapped Option.none =
      Except.ok ⟨PyValue.list [], "list", Option.some "enum", Option.some "RecordingMethod"⟩ :=
  ⟨rfl, rfl⟩

/-- C7: for every list of `n` health data types, omitting `data_access`
yields `n` copies of `DataAccess.READ`, so the two lists end up the same
length — both when constructing `HealthAuthorizationParams` (via its
`apply_default_data_access` root validator) and inside
`Health.request_authorization`. -/
theorem C7_default_data_access (types : List HealthDataType) (w : Rat) (hw : 0 < w) :
    HealthAuthorizationParams.construct types Option.none w =
      Except.ok ⟨types, List.replicate types.length DataAccess.READ, w⟩ ∧
    (List.replicate types.length DataAccess.READ).length = types.length ∧
    request_authorization_validate types Option.none =
      Except.ok (types.map HealthDataType.value,
        if types.length = 0 then Option.none
        else Option.some ((List.replicate types.length DataAccess.READ).map DataAccess.value)) := by
  refine ⟨by simp [HealthAuthorizationParams.construct, hw], List.length_replicate _ _, ?_⟩
  cases types with
  | nil => rfl
  | cons t ts => simp [request_authorization_validate, List.replicate]

/-- C7 witness: the theorem evaluated at `types = [STEPS, WEIGHT]`,
`wait_timeout = 25`. -/
theorem C7_default_data_access_witness :
    HealthAuthorizationParams.construct [HealthDataType.STEPS, HealthDataType.WEIGHT]
        Option.none 25 =
      Except.ok ⟨[HealthDataType.STEPS, HealthDataType.WEIGHT],
        List.replicate [HealthDataType.STEPS, HealthDataType.WEIGHT].length DataAccess.READ, 25⟩ ∧
    (List.replicate [HealthDataType.STEPS, HealthDataType.WEIGHT].length DataAccess.READ).length =
      [HealthDataType.STEPS, HealthDataType.WEIGHT].length ∧
    request_authorization_validate [HealthDataType.STEPS, HealthDataType.WEIGHT] Option.none =
      Except.ok ([HealthDataType.STEPS, HealthDataType.WEIGHT].map HealthDataType.value,
        if [HealthDataType.STEPS, HealthDataType.WEIGHT].length = 0 then Option.none
        else Option.some ((List.replicate [HealthDataType.STEPS, HealthDataType.WEIGHT].length
          DataAccess.READ).map DataAccess.value)) :=
  C7_default_data_access [HealthDataType.STEPS, HealthDataType.WEIGHT] 25 (by decide)

/-- C8: `wrap_value` with no hints maps each primitive to an envelope with
the value unchanged and the matching tag — booleans to `"bool"` (not
`"int"`), integers to `"int"`, floats to `"float"`, strings to `"str"`; in
particular re-wrapping the integer produced by a date-wrap yields `"int"`,
not `"date"`. -/
theorem C8_primitives (b : Bool) (n : Int) (q : Rat) (s : String) (micros : Int) :
    wrap_value (PyValue.bool b) Option.none Option.none Option.none =
      Except.ok ⟨PyValue.bool b, "bool", Option.none, Option.none⟩ ∧
    wrap_value (PyValue.int n) Option.none Option.none Option.none =
      Except.ok ⟨PyValue.int n, "int", Option.none, Option.none⟩ ∧
    wrap_value (PyValue.float q) Option.none Option.none Option.none =
      Except.ok ⟨PyValue.float q, "float", Option.none, Option.none⟩ ∧
    wrap_value (PyValue.str s) Option.none Option.none Option.none =
      Except.ok ⟨PyValue.str s, "str", Option.none, Option.none⟩ ∧
    wrap_value (PyValue.int (Int.tdiv micros 1000)) Option.none Option.none Option.none =
      Except.ok ⟨PyValue.int (Int.tdiv micros 1000), "int", Option.none, Option.none⟩ :=
  ⟨rfl, rfl, rfl, rfl, rfl⟩

/-- C9: a value outside the supported domain (any object that is not
`None` / bool / int / float / str / datetime / enum member / list / dict)
makes `wrap_value` raise `TypeError("Unsupported type ...")` for every hint
combination — it is never tagged `"unknown"`. -/
theorem C9_unsupported (tyName : String) (tn sn cn : Option String) :
    wrap_value (PyValue.obj tyName) tn sn cn =
      Except.error ("Unsupported type " ++ tyName) := rfl

/-- C10: `has_permissions` (and its async twin) is tri-state — the reply
`"true"` maps to `True`, `"false"` to `False`, and every other reply
(including an absent one) to `None` — whereas a boolean-result operation
such as `request_authorization` maps every reply other than `"true"`,
`"false"` included, to `False`. -/
theorem C10_has_permissions_tristate :
    has_permissions_interpret (Option.some "true") = Option.some true ∧
    has_permissions_interpret (Option.some "false") = Option.some false ∧
    (∀ r, r ≠ Option.some "true" → r ≠ Option.some "false" →
       has_permissions_interpret r = Option.none) ∧
    (∀ r, has_permissions_async_interpret r = has_permissions_interpret r) ∧
    request_authorization_interpret (Option.some "true") = true ∧
    request_authorization_interpret (Option.some "false") = false ∧
    (∀ r, r ≠ Option.some "true" → request_authorization_interpret r = false) := by
  refine ⟨by decide, by decide, fun r h1 h2 => ?_, fun r => rfl, by decide, by decide,
    fun r h1 => ?_⟩
  · simp [has_permissions_interpret, h1, h2]
  · simp [request_authorization_interpret, h1]

/-- C10 witness: the theorem evaluated at the reply `"granted"`, which is
neither `"true"` nor `"false"`. -/
theorem C10_has_permissions_tristate_witness :
    has_permissions_interpret (Option.some "granted") = Option.none ∧
    request_authorization_interpret (Option.some "granted") = false :=
  ⟨C10_has_permissions_tristate.2.2.1 (Option.some "granted") (by decide) (by decide),
   C10_has_permissions_tristate.2.2.2.2.2.2 (Option.some "granted") (by decide)⟩
